import Mathlib

/-!
# i.MX pcm512x ASoC machine driver: embedding and properties

Shallow embedding of `sound/soc/fsl/imx-pcm512x.c`.  Every driver function is
a Lean function from the values it reads (device-tree lookups, results of the
kernel services it calls) to its return code together with the ordered list
of kernel calls it makes.
-/

namespace ImxPcm512x

/-! ## Kernel constants used by the driver -/

/-- Modelled from the spec: the errno macros live in kernel headers outside the
driver file.  `ENOMEM` is the out-of-memory code (errno-base.h value 12). -/
def ENOMEM : Int := 12

/-- Modelled from the spec: the invalid-argument class of the fatal
configuration errors (errno-base.h value 22). -/
def EINVAL : Int := 22

/-- Modelled from the spec: the retry-later (defer) code, distinct from the
fatal class (linux/errno.h value 517). -/
def EPROBE_DEFER : Int := 517

/-- Header values the driver only combines and passes on: the three DAI format
macros of `sound/soc-dai.h` and the width of `unsigned long`. -/
structure KernelConsts where
  SND_SOC_DAIFMT_I2S : Nat
  SND_SOC_DAIFMT_NB_NF : Nat
  SND_SOC_DAIFMT_CBS_CFS : Nat
  BITS_PER_LONG : Nat

/-- Modelled from the spec: `BIT` is a macro of a kernel header outside the
driver file, `BIT(nr) = 1UL << nr`, one bit per position.  C defines the shift
only for `nr` below the width of `unsigned long`; `none` is the undefined case. -/
def BIT (k : KernelConsts) (nr : Nat) : Option Nat :=
  if nr < k.BITS_PER_LONG then some (2 ^ nr) else none

/-- Conversion of an `unsigned long` value to an `unsigned int` argument. -/
def to_uint (v : Nat) : Nat := v % 2 ^ 32

/-- The expression `BIT(channels) - 1` in `unsigned long` arithmetic, passed as
an `unsigned int` argument. -/
def slot_mask (k : KernelConsts) (channels : Nat) : Option Nat :=
  (BIT k channels).map
    (fun b => to_uint ((b + 2 ^ k.BITS_PER_LONG - 1) % 2 ^ k.BITS_PER_LONG))

/-! ## Data model -/

/-- A `struct gpio_desc *` as `devm_gpiod_get_optional` hands it out: `NULL`
(no such line described), a descriptor, or `ERR_PTR(-(e+1))` with
`e + 1 ≤ MAX_ERRNO = 4095`. -/
inductive GpioPtr
  | null
  | desc (id : Nat)
  | err (e : Fin 4095)
  deriving DecidableEq, Repr

/-- The kernel test `IS_ERR`. -/
def IS_ERR : GpioPtr → Bool
  | .err _ => true
  | _ => false

/-- The kernel conversion `PTR_ERR` (meaningful on error pointers). -/
def PTR_ERR : GpioPtr → Int
  | .err e => -((e.val : Int) + 1)
  | _ => 0

/-- Pointer truth value, as in `data->gpio_unmute && data->mute_gpio`. -/
def GpioPtr.nonnull : GpioPtr → Bool
  | .null => false
  | _ => true

/-- The two DAIs of the link's runtime (`rtd->cpu_dai`, `rtd->codec_dai`). -/
inductive DaiId
  | cpu_dai
  | codec_dai
  deriving DecidableEq, Repr

/-- The driver functions that are installed as callbacks. -/
inductive Callback
  | imx_pcm512x_dai_init
  | imx_pcm512x_set_bias_level
  | imx_pcm512x_hw_params
  deriving DecidableEq, Repr

/-- A pointer into the `struct imx_pcm512x_data` allocation: the allocation
itself (`data`) or its member `&data->card`. -/
inductive DataPtr
  | data
  | data_card
  deriving DecidableEq, Repr

/-- Calls into the kernel made by the driver, in program order.  The driver asks
for the mute line with `GPIOD_OUT_LOW` only, so the flag is not recorded. -/
inductive Event
  | of_parse_phandle (name : String) (res : Option Nat)
  | of_find_device_by_node (np : Nat)
  | of_find_i2c_device_by_node (np : Nat)
  | of_property_read_bool (name : String)
  | devm_gpiod_get_optional (con_id : String) (res : GpioPtr)
  | snd_soc_of_parse_card_name (propname : String)
  | snd_soc_of_parse_audio_routing (propname : String)
  | platform_set_drvdata (p : DataPtr)
  | snd_soc_card_set_drvdata
  | devm_snd_soc_register_card (res : Int)
  | gpiod_set_value_cansleep (gpio : GpioPtr) (value : Int)
  | of_node_put (np : Nat)
  | snd_soc_limit_volume (name : String) (max : Int) (res : Int)
  | snd_soc_dai_set_fmt (dai : DaiId) (fmt : Nat) (res : Int)
  | snd_soc_dai_set_tdm_slot (dai : DaiId) (tx_mask rx_mask : Option Nat)
      (slots slot_width : Int) (res : Int)
  | snd_soc_unregister_card (card : Nat) (res : Int)
  | dev_err (msg : String)
  | dev_warn (msg : String)
  deriving DecidableEq, Repr

/-- The constant table `imx_pcm512x_ops`. -/
structure snd_soc_ops where
  hw_params : Option Callback
  deriving DecidableEq, Repr

/-- The fields of `struct snd_soc_dai_link` the driver fills in. -/
structure snd_soc_dai_link where
  name : Option String := none
  stream_name : Option String := none
  cpu_dai_name : Option String := none
  codec_dai_name : Option String := none
  codec_of_node : Option Nat := none
  cpu_of_node : Option Nat := none
  platform_of_node : Option Nat := none
  ops : Option snd_soc_ops := none
  init : Option Callback := none
  dai_fmt : Nat := 0
  deriving DecidableEq, Repr

/-- The fields of `struct snd_soc_card` the driver fills in. -/
structure snd_soc_card where
  dev : Bool := false
  num_links : Nat := 0
  owner : Bool := false
  dai_link : Bool := false
  dapm_widgets : List String := []
  num_dapm_widgets : Nat := 0
  set_bias_level : Option Callback := none
  drvdata : Option DataPtr := none
  deriving DecidableEq, Repr

/-- The driver's `struct imx_pcm512x_data`; the defaults are the zeroed
allocation of `devm_kzalloc`. -/
structure imx_pcm512x_data where
  dai : snd_soc_dai_link := {}
  card : snd_soc_card := {}
  mute_gpio : GpioPtr := GpioPtr.null
  digital_gain_limit : Bool := false
  gpio_unmute : Bool := false
  auto_mute : Bool := false
  deriving DecidableEq, Repr

/-- The widget table `imx_pcm512x_dapm_widgets`. -/
def imx_pcm512x_dapm_widgets : List String := ["Line Out Jack", "Line In Jack"]

/-- The constant table `imx_pcm512x_ops`. -/
def imx_pcm512x_ops : snd_soc_ops := { hw_params := some Callback.imx_pcm512x_hw_params }

/-! ## `imx_pcm512x_dai_init` -/

/-- Link initialisation hook.  `limit_volume` is the result of
`snd_soc_limit_volume` for the given control name and maximum. -/
def imx_pcm512x_dai_init (data : imx_pcm512x_data)
    (limit_volume : String → Int → Int) : Int × List Event :=
  if data.digital_gain_limit then
    let ret := limit_volume "Digital Playback Volume" 207
    let tr := [Event.snd_soc_limit_volume "Digital Playback Volume" 207 ret]
    if ret ≠ 0 then
      (0, tr ++ [Event.dev_warn "fail to set volume limit\n"])
    else
      (0, tr)
  else
    (0, [])

/-! ## `imx_pcm512x_set_bias_level` -/

/-- The power levels of `enum snd_soc_bias_level`. -/
inductive snd_soc_bias_level
  | SND_SOC_BIAS_OFF
  | SND_SOC_BIAS_STANDBY
  | SND_SOC_BIAS_PREPARE
  | SND_SOC_BIAS_ON
  deriving DecidableEq, Repr

/-- The fields of `struct snd_soc_dapm_context` the hook reads. -/
structure snd_soc_dapm_context where
  dev : Nat
  bias_level : snd_soc_bias_level
  deriving DecidableEq, Repr

/-- The field of `struct snd_soc_dai` the hook reads. -/
structure snd_soc_dai where
  dev : Nat
  deriving DecidableEq, Repr

/-- Bias-level hook.  `codec_dai` is `rtd->codec_dai` of the runtime found by
`snd_soc_get_pcm_runtime` for the card's link. -/
def imx_pcm512x_set_bias_level (data : imx_pcm512x_data) (codec_dai : snd_soc_dai)
    (dapm : snd_soc_dapm_context) (level : snd_soc_bias_level) : Int × List Event :=
  if dapm.dev ≠ codec_dai.dev then
    (0, [])
  else
    match level with
    | snd_soc_bias_level.SND_SOC_BIAS_PREPARE =>
      if dapm.bias_level ≠ snd_soc_bias_level.SND_SOC_BIAS_STANDBY then (0, [])
      else (0, [Event.gpiod_set_value_cansleep data.mute_gpio 1])
    | snd_soc_bias_level.SND_SOC_BIAS_STANDBY =>
      if dapm.bias_level ≠ snd_soc_bias_level.SND_SOC_BIAS_PREPARE then (0, [])
      else (0, [Event.gpiod_set_value_cansleep data.mute_gpio 0])
    | _ => (0, [])

/-- The GPIO action of the bias-level reaction as the specification words it:
a function of (context is the codec's, previous level, new level); `some v`
writes `v` to the mute line, `none` writes nothing. -/
def bias_action_spec (own : Bool) (prev new : snd_soc_bias_level) : Option Int :=
  if own = true ∧ prev = snd_soc_bias_level.SND_SOC_BIAS_STANDBY
      ∧ new = snd_soc_bias_level.SND_SOC_BIAS_PREPARE then some 1
  else if own = true ∧ prev = snd_soc_bias_level.SND_SOC_BIAS_PREPARE
      ∧ new = snd_soc_bias_level.SND_SOC_BIAS_STANDBY then some 0
  else none

/-- Rendering of a GPIO action as calls on a given line. -/
def gpio_writes (gpio : GpioPtr) : Option Int → List Event
  | some v => [Event.gpiod_set_value_cansleep gpio v]
  | none => []

/-! ## `imx_pcm512x_hw_params` -/

/-- The two values the driver reads from `struct snd_pcm_hw_params`. -/
structure snd_pcm_hw_params where
  channels : Nat
  physical_width : Int
  deriving DecidableEq, Repr

/-- The DAI services of the ASoC core as the driver sees them: the result code
of each request. -/
structure DaiCore where
  snd_soc_dai_set_fmt : DaiId → Nat → Int
  snd_soc_dai_set_tdm_slot : DaiId → Option Nat → Option Nat → Int → Int → Int

/-- The format word `SND_SOC_DAIFMT_I2S | SND_SOC_DAIFMT_NB_NF |
SND_SOC_DAIFMT_CBS_CFS`. -/
def link_fmt (k : KernelConsts) : Nat :=
  k.SND_SOC_DAIFMT_I2S ||| k.SND_SOC_DAIFMT_NB_NF ||| k.SND_SOC_DAIFMT_CBS_CFS

/-- Stream format negotiation. -/
def imx_pcm512x_hw_params (k : KernelConsts) (core : DaiCore)
    (params : snd_pcm_hw_params) : Int × List Event :=
  let channels := params.channels
  let fmt := k.SND_SOC_DAIFMT_I2S ||| k.SND_SOC_DAIFMT_NB_NF ||| k.SND_SOC_DAIFMT_CBS_CFS
  let ret := core.snd_soc_dai_set_fmt DaiId.cpu_dai fmt
  let tr1 := [Event.snd_soc_dai_set_fmt DaiId.cpu_dai fmt ret]
  if ret ≠ 0 then
    (ret, tr1 ++ [Event.dev_err "fail to set cpu dai fmt\n"])
  else
    let ret := core.snd_soc_dai_set_fmt DaiId.codec_dai fmt
    let tr2 := tr1 ++ [Event.snd_soc_dai_set_fmt DaiId.codec_dai fmt ret]
    if ret ≠ 0 then
      (ret, tr2 ++ [Event.dev_err "fail to set codec dai fmt\n"])
    else
      let ret := core.snd_soc_dai_set_tdm_slot DaiId.cpu_dai (slot_mask k channels)
        (slot_mask k channels) 2 params.physical_width
      let tr3 := tr2 ++ [Event.snd_soc_dai_set_tdm_slot DaiId.cpu_dai (slot_mask k channels)
        (slot_mask k channels) 2 params.physical_width ret]
      if ret ≠ 0 then
        (ret, tr3 ++ [Event.dev_err "fail to set cpu dai tdm slot\n"])
      else
        (0, tr3)

/-! ## `imx_pcm512x_probe` -/

/-- The platform device behind the CPU node; `name` is `dev_name(&cpu_pdev->dev)`. -/
structure platform_device where
  name : String
  deriving DecidableEq, Repr

/-- The codec I2C client; `driver` tells whether `codec_dev->dev.driver` is set. -/
structure i2c_client where
  driver : Bool
  deriving DecidableEq, Repr

/-- Everything `imx_pcm512x_probe` reads from outside: the allocator, the
device tree of `pdev->dev.of_node`, the device registries, the GPIO lookup and
the result codes of the three ASoC services it calls. -/
structure Env where
  devm_kzalloc : Bool
  of_parse_phandle : String → Option Nat
  of_find_device_by_node : Nat → Option platform_device
  of_find_i2c_device_by_node : Nat → Option i2c_client
  of_property_read_bool : String → Bool
  devm_gpiod_get_optional : String → GpioPtr
  snd_soc_of_parse_card_name : Int
  snd_soc_of_parse_audio_routing : Int
  devm_snd_soc_register_card : Int

/-- Outcome of a probe call: the return code, the contents of the allocation
(`none` when `devm_kzalloc` failed), the device's driver data pointer
and the calls made. -/
structure ProbeResult where
  ret : Int
  data : Option imx_pcm512x_data
  drvdata : Option DataPtr
  trace : List Event
  deriving DecidableEq, Repr

/-- The code at the label `fail`: put the nodes that are non-NULL. -/
def probe_fail (cpu_np codec_np : Option Nat) : List Event :=
  (match codec_np with
    | some n => [Event.of_node_put n]
    | none => []) ++
  (match cpu_np with
    | some n => [Event.of_node_put n]
    | none => [])

/-- Platform attach handler. -/
def imx_pcm512x_probe (k : KernelConsts) (env : Env) : ProbeResult :=
  if env.devm_kzalloc = false then
    { ret := -ENOMEM, data := none, drvdata := none, trace := [] }
  else
  let data : imx_pcm512x_data := {}
  let cpu_np := env.of_parse_phandle "audio-cpu"
  let tr := [Event.of_parse_phandle "audio-cpu" cpu_np]
  match cpu_np with
  | none =>
    { ret := -EINVAL, data := some data, drvdata := none,
      trace := tr ++ [Event.dev_err "cpu dai phandle missing or invalid\n"]
        ++ probe_fail none none }
  | some cpu =>
  let tr := tr ++ [Event.of_find_device_by_node cpu]
  match env.of_find_device_by_node cpu with
  | none =>
    { ret := -EINVAL, data := some data, drvdata := none,
      trace := tr ++ [Event.dev_err "fail to find SAI platform device\n"]
        ++ probe_fail (some cpu) none }
  | some cpu_pdev =>
  let codec_np := env.of_parse_phandle "audio-codec"
  let tr := tr ++ [Event.of_parse_phandle "audio-codec" codec_np]
  match codec_np with
  | none =>
    { ret := -EINVAL, data := some data, drvdata := none,
      trace := tr ++ [Event.dev_err "codec dai phandle missing or invalid\n"]
        ++ probe_fail (some cpu) none }
  | some codec =>
  let tr := tr ++ [Event.of_find_i2c_device_by_node codec]
  if (match env.of_find_i2c_device_by_node codec with
      | none => true
      | some codec_dev => !codec_dev.driver) then
    { ret := -EPROBE_DEFER, data := some data, drvdata := none,
      trace := tr ++ [Event.dev_err "fail to find codec i2c device\n"]
        ++ probe_fail (some cpu) (some codec) }
  else
  let data := { data with
    digital_gain_limit := !env.of_property_read_bool "pidac,24db_digital_gain" }
  let data := { data with gpio_unmute := env.of_property_read_bool "pidac,unmute_amp" }
  let data := { data with auto_mute := env.of_property_read_bool "pidac,auto_mute_amp" }
  let tr := tr ++ [Event.of_property_read_bool "pidac,24db_digital_gain",
    Event.of_property_read_bool "pidac,unmute_amp",
    Event.of_property_read_bool "pidac,auto_mute_amp"]
  let want_gpio := data.gpio_unmute || data.auto_mute
  let data := if want_gpio then
      { data with mute_gpio := env.devm_gpiod_get_optional "mute" } else data
  let tr := if want_gpio then
      tr ++ [Event.devm_gpiod_get_optional "mute" data.mute_gpio] else tr
  if want_gpio && IS_ERR data.mute_gpio then
    { ret := PTR_ERR data.mute_gpio, data := some data, drvdata := none,
      trace := tr ++ [Event.dev_err "fail to get mute gpio\n"]
        ++ probe_fail (some cpu) (some codec) }
  else
  let data := { data with dai := { data.dai with
    name := some "imx-pcm512x",
    stream_name := some "imx-pcm512x",
    cpu_dai_name := some cpu_pdev.name,
    codec_dai_name := some "pcm512x-hifi",
    codec_of_node := some codec,
    cpu_of_node := some cpu,
    platform_of_node := some cpu,
    ops := some imx_pcm512x_ops,
    init := some Callback.imx_pcm512x_dai_init,
    dai_fmt := k.SND_SOC_DAIFMT_I2S ||| k.SND_SOC_DAIFMT_NB_NF
      ||| k.SND_SOC_DAIFMT_CBS_CFS } }
  let data := { data with card := { data.card with
    dev := true,
    num_links := 1,
    owner := true,
    dai_link := true,
    dapm_widgets := imx_pcm512x_dapm_widgets,
    num_dapm_widgets := imx_pcm512x_dapm_widgets.length } }
  let data := if data.auto_mute && data.gpio_unmute then
      { data with card := { data.card with
        set_bias_level := some Callback.imx_pcm512x_set_bias_level } }
    else data
  let ret := env.snd_soc_of_parse_card_name
  let tr := tr ++ [Event.snd_soc_of_parse_card_name "model"]
  if ret ≠ 0 then
    { ret := ret, data := some data, drvdata := none,
      trace := tr ++ [Event.dev_err "fail to find card model name\n"]
        ++ probe_fail (some cpu) (some codec) }
  else
  let ret := env.snd_soc_of_parse_audio_routing
  let tr := tr ++ [Event.snd_soc_of_parse_audio_routing "audio-routing"]
  if ret ≠ 0 then
    { ret := ret, data := some data, drvdata := none,
      trace := tr ++ [Event.dev_err "fail to parse audio routing\n"]
        ++ probe_fail (some cpu) (some codec) }
  else
  let drvdata := some DataPtr.data_card
  let data := { data with card := { data.card with drvdata := some DataPtr.data } }
  let tr := tr ++ [Event.platform_set_drvdata DataPtr.data_card, Event.snd_soc_card_set_drvdata]
  let ret := env.devm_snd_soc_register_card
  let tr := tr ++ [Event.devm_snd_soc_register_card ret]
  if ret ≠ 0 then
    { ret := ret, data := some data, drvdata := drvdata,
      trace := tr ++ [Event.dev_err "snd soc register card failed: %d\n"]
        ++ probe_fail (some cpu) (some codec) }
  else
  let tr := if data.gpio_unmute && data.mute_gpio.nonnull then
      tr ++ [Event.gpiod_set_value_cansleep data.mute_gpio 1] else tr
  { ret := 0, data := some data, drvdata := drvdata,
    trace := tr ++ probe_fail (some cpu) (some codec) }

/-! ## Bias-level dispatch of the ASoC core -/

/-- Modelled from the spec: the ASoC core's notification of a bias-level change
is code outside the driver file.  The card reacts through its
`set_bias_level` hook when one is installed; with no hook the card's reaction
to bias changes is disabled. -/
def card_set_bias_level (data : imx_pcm512x_data) (codec_dai : snd_soc_dai)
    (dapm : snd_soc_dapm_context) (level : snd_soc_bias_level) : Int × List Event :=
  match data.card.set_bias_level with
  | some Callback.imx_pcm512x_set_bias_level =>
    imx_pcm512x_set_bias_level data codec_dai dapm level
  | _ => (0, [])

/-! ## `imx_pcm512x_remove` -/

/-- Sizes the C layout of `struct imx_pcm512x_data` depends on. -/
structure Layout where
  sizeof_dai_link : Nat
  sizeof_card : Nat
  sizeof_ptr : Nat
  deriving DecidableEq, Repr

/-- Offset of the member `card`: it follows the member `dai`. -/
def offsetof_card (l : Layout) : Nat := l.sizeof_dai_link

/-- Offset of the member `mute_gpio`. -/
def offsetof_mute_gpio (l : Layout) : Nat := l.sizeof_dai_link + l.sizeof_card

/-- Offset of the member `digital_gain_limit`. -/
def offsetof_digital_gain_limit (l : Layout) : Nat :=
  l.sizeof_dai_link + l.sizeof_card + l.sizeof_ptr

/-- Offset of the member `gpio_unmute`. -/
def offsetof_gpio_unmute (l : Layout) : Nat :=
  l.sizeof_dai_link + l.sizeof_card + l.sizeof_ptr + 1

/-- Offset of the member `auto_mute`. -/
def offsetof_auto_mute (l : Layout) : Nat :=
  l.sizeof_dai_link + l.sizeof_card + l.sizeof_ptr + 2

/-- Address of a pointer into the allocation, relative to its start. -/
def DataPtr.addr (l : Layout) : DataPtr → Nat
  | DataPtr.data => 0
  | DataPtr.data_card => offsetof_card l

/-- Load of a `bool` at an address of the allocation: defined where a `bool`
member lives, `none` (no such object) anywhere else. -/
def load_bool (l : Layout) (obj : imx_pcm512x_data) (addr : Nat) : Option Bool :=
  if addr = offsetof_digital_gain_limit l then some obj.digital_gain_limit
  else if addr = offsetof_gpio_unmute l then some obj.gpio_unmute
  else if addr = offsetof_auto_mute l then some obj.auto_mute
  else none

/-- Load of a `struct gpio_desc *` at an address of the allocation. -/
def load_gpio (l : Layout) (obj : imx_pcm512x_data) (addr : Nat) : Option GpioPtr :=
  if addr = offsetof_mute_gpio l then some obj.mute_gpio else none

/-- Platform detach handler.  `obj` is the allocation made by probe, `drvdata`
the device's driver data pointer, `unregister_card` the result of
`snd_soc_unregister_card` for the card address it is given.  The handler
takes the driver data pointer as a `struct imx_pcm512x_data *`; the result is
`none` when a member it reads through that pointer is not there. -/
def imx_pcm512x_remove (l : Layout) (obj : imx_pcm512x_data) (drvdata : DataPtr)
    (unregister_card : Nat → Int) : Option (Int × List Event) :=
  let data := drvdata.addr l
  match load_bool l obj (data + offsetof_gpio_unmute l) with
  | none => none
  | some gpio_unmute =>
    match (if gpio_unmute then
        (load_gpio l obj (data + offsetof_mute_gpio l)).map
          (fun mute_gpio => [Event.gpiod_set_value_cansleep mute_gpio 0])
      else some []) with
    | none => none
    | some tr =>
      let card := data + offsetof_card l
      some (unregister_card card, tr ++ [Event.snd_soc_unregister_card card (unregister_card card)])

/-! ## Observers used in the statements -/

/-- Writes to a GPIO line. -/
def is_gpio_write : Event → Bool
  | Event.gpiod_set_value_cansleep _ _ => true
  | _ => false

/-- Log output. -/
def is_log : Event → Bool
  | Event.dev_err _ => true
  | Event.dev_warn _ => true
  | _ => false

/-- The kernel calls of a trace, log output left out. -/
def calls (tr : List Event) : List Event := tr.filter (fun e => !is_log e)

/-- Requests of TDM slots. -/
def is_tdm_request : Event → Bool
  | Event.snd_soc_dai_set_tdm_slot _ _ _ _ _ _ => true
  | _ => false

/-- Acquisition of a reference to node `n` by `of_parse_phandle`. -/
def acquires (n : Nat) : Event → Bool
  | Event.of_parse_phandle _ (some m) => decide (m = n)
  | _ => false

/-- Release of a reference to node `n` by `of_node_put`. -/
def releases (n : Nat) : Event → Bool
  | Event.of_node_put m => decide (m = n)
  | _ => false

/-- Level of the mute line after one call: acquisition as `GPIOD_OUT_LOW`
leaves it low, a write leaves the written value. -/
def mute_line_step (s : Option Int) : Event → Option Int
  | Event.devm_gpiod_get_optional _ (GpioPtr.desc _) => some 0
  | Event.gpiod_set_value_cansleep (GpioPtr.desc _) v => some v
  | _ => s

/-- Level of the mute line after a sequence of calls (`none`: never driven). -/
def mute_line (tr : List Event) : Option Int := tr.foldl mute_line_step none

/-- A mask has exactly the `n` low-order bits set and no others. -/
def low_bits_exactly (m n : Nat) : Prop := ∀ i, m.testBit i = decide (i < n)

/-! ## Concrete inputs -/

/-- Header values of a 64-bit kernel: `SND_SOC_DAIFMT_I2S = 1`,
`SND_SOC_DAIFMT_NB_NF = 0 << 8`, `SND_SOC_DAIFMT_CBS_CFS = 4 << 12`,
`BITS_PER_LONG = 64`. -/
def k_arm64 : KernelConsts :=
  { SND_SOC_DAIFMT_I2S := 1, SND_SOC_DAIFMT_NB_NF := 0, SND_SOC_DAIFMT_CBS_CFS := 16384,
    BITS_PER_LONG := 64 }

/-- An ASoC core that accepts every DAI request. -/
def core_accept : DaiCore :=
  { snd_soc_dai_set_fmt := fun _ _ => 0,
    snd_soc_dai_set_tdm_slot := fun _ _ _ _ _ => 0 }

/-- An ASoC core in which the codec DAI rejects the format with code -22. -/
def core_codec_rejects : DaiCore :=
  { snd_soc_dai_set_fmt := fun dai _ => if dai = DaiId.codec_dai then -22 else 0,
    snd_soc_dai_set_tdm_slot := fun _ _ _ _ _ => 0 }

/-- A board on which everything resolves: CPU node 1 with its platform device,
codec node 2 with a bound I2C driver, both mute properties present, the
gain property absent, a mute line, and all ASoC services succeeding. -/
def env_ok : Env :=
  { devm_kzalloc := true,
    of_parse_phandle := fun name =>
      if name = "audio-cpu" then some 1 else if name = "audio-codec" then some 2 else none,
    of_find_device_by_node := fun np => if np = 1 then some { name := "30010000.sai" } else none,
    of_find_i2c_device_by_node := fun np => if np = 2 then some { driver := true } else none,
    of_property_read_bool := fun name =>
      decide (name = "pidac,unmute_amp") || decide (name = "pidac,auto_mute_amp"),
    devm_gpiod_get_optional := fun _ => GpioPtr.desc 7,
    snd_soc_of_parse_card_name := 0,
    snd_soc_of_parse_audio_routing := 0,
    devm_snd_soc_register_card := 0 }

/-- The same board with only `pidac,unmute_amp` present. -/
def env_unmute_only : Env :=
  { env_ok with of_property_read_bool := fun name => decide (name = "pidac,unmute_amp") }

/-- The same board before the codec driver is bound. -/
def env_codec_unbound : Env :=
  { env_ok with
    of_find_i2c_device_by_node := fun np => if np = 2 then some { driver := false } else none }

/-- The same board with no `audio-cpu` phandle. -/
def env_no_cpu : Env :=
  { env_ok with
    of_parse_phandle := fun name => if name = "audio-codec" then some 2 else none }

/-- The board with the codec driver unbound, and the allocation failing. -/
def env_codec_unbound_oom : Env := { env_codec_unbound with devm_kzalloc := false }

/-- The board with no `audio-cpu` phandle, and the allocation failing. -/
def env_no_cpu_oom : Env := { env_no_cpu with devm_kzalloc := false }

/-- An allocation with the digital gain limit enabled. -/
def data_limit : imx_pcm512x_data := { digital_gain_limit := true }

/-- A 64-bit layout with the smallest sizes the members assigned by probe
allow: nine pointers and an `unsigned int` in the link, 8-byte pointers. -/
def layout_min64 : Layout := { sizeof_dai_link := 80, sizeof_card := 64, sizeof_ptr := 8 }

/-! ## Properties -/

/-- C4: every node reference probe acquires through `of_parse_phandle` is
released by `of_node_put` exactly once, on every exit path, and no other node
is released: for each node the number of releases equals the number of
acquisitions. -/
theorem probe_node_refs_balanced (k : KernelConsts) (env : Env) (n : Nat) :
    ((imx_pcm512x_probe k env).trace.countP (releases n))
      = ((imx_pcm512x_probe k env).trace.countP (acquires n)) := by
  rcases h0 : env.devm_kzalloc with _ | _
  · simp [imx_pcm512x_probe, h0]
  rcases h1 : env.of_parse_phandle "audio-cpu" with _ | cpu
  · simp [imx_pcm512x_probe, h0, h1, probe_fail, releases, acquires]
  rcases h2 : env.of_find_device_by_node cpu with _ | cpu_pdev
  · simp [imx_pcm512x_probe, h0, h1, h2, probe_fail, releases, acquires, List.countP_cons]
  rcases h3 : env.of_parse_phandle "audio-codec" with _ | codec
  · simp [imx_pcm512x_probe, h0, h1, h2, h3, probe_fail, releases, acquires,
      List.countP_cons]
  rcases h4 : env.of_find_i2c_device_by_node codec with _ | ⟨_ | _⟩
  · simp [imx_pcm512x_probe, h0, h1, h2, h3, h4, probe_fail, releases, acquires,
      List.countP_cons]
    omega
  · simp [imx_pcm512x_probe, h0, h1, h2, h3, h4, probe_fail, releases, acquires,
      List.countP_cons]
    omega
  rcases hu : env.of_property_read_bool "pidac,unmute_amp" with _ | _ <;>
  rcases ha : env.of_property_read_bool "pidac,auto_mute_amp" with _ | _ <;>
  rcases hg : env.devm_gpiod_get_optional "mute" with _ | id | e <;>
  by_cases hc : env.snd_soc_of_parse_card_name = 0 <;>
  by_cases hr : env.snd_soc_of_parse_audio_routing = 0 <;>
  by_cases hreg : env.devm_snd_soc_register_card = 0 <;>
  simp [imx_pcm512x_probe, h0, h1, h2, h3, h4, hu, ha, hg, hc, hr, hreg, probe_fail,
    releases, acquires, List.countP_cons, IS_ERR, GpioPtr.nonnull] <;>
  omega

/-- C1: the bias-level hook always returns 0, and its GPIO traffic is a pure
function of (context is the codec's, current level, new level): it writes 1
exactly for the codec context going STANDBY to PREPARE, writes 0 exactly for
the codec context going PREPARE to STANDBY, and writes nothing otherwise. -/
theorem set_bias_level_is_pure_gpio_action (data : imx_pcm512x_data)
    (codec_dai : snd_soc_dai) (dapm : snd_soc_dapm_context) (level : snd_soc_bias_level) :
    (imx_pcm512x_set_bias_level data codec_dai dapm level).1 = 0
    ∧ ((imx_pcm512x_set_bias_level data codec_dai dapm level).2
          = [Event.gpiod_set_value_cansleep data.mute_gpio 1]
        ↔ (dapm.dev = codec_dai.dev
            ∧ dapm.bias_level = snd_soc_bias_level.SND_SOC_BIAS_STANDBY
            ∧ level = snd_soc_bias_level.SND_SOC_BIAS_PREPARE))
    ∧ ((imx_pcm512x_set_bias_level data codec_dai dapm level).2
          = [Event.gpiod_set_value_cansleep data.mute_gpio 0]
        ↔ (dapm.dev = codec_dai.dev
            ∧ dapm.bias_level = snd_soc_bias_level.SND_SOC_BIAS_PREPARE
            ∧ level = snd_soc_bias_level.SND_SOC_BIAS_STANDBY))
    ∧ ((imx_pcm512x_set_bias_level data codec_dai dapm level).2 = []
        ↔ ¬ (dapm.dev = codec_dai.dev
              ∧ dapm.bias_level = snd_soc_bias_level.SND_SOC_BIAS_STANDBY
              ∧ level = snd_soc_bias_level.SND_SOC_BIAS_PREPARE)
          ∧ ¬ (dapm.dev = codec_dai.dev
              ∧ dapm.bias_level = snd_soc_bias_level.SND_SOC_BIAS_PREPARE
              ∧ level = snd_soc_bias_level.SND_SOC_BIAS_STANDBY))
    ∧ imx_pcm512x_set_bias_level data codec_dai dapm level
        = (0, gpio_writes data.mute_gpio
            (bias_action_spec (decide (dapm.dev = codec_dai.dev)) dapm.bias_level level)) := by
  obtain ⟨ddev, cur⟩ := dapm
  by_cases hd : ddev = codec_dai.dev <;> cases cur <;> cases level <;>
    simp [imx_pcm512x_set_bias_level, bias_action_spec, gpio_writes, hd]

/-- Value of `BIT(n) - 1` as passed on, for a channel count the types can hold. -/
theorem slot_mask_eq (k : KernelConsts) (n : Nat) (hN : n ≤ 32) (hL : n < k.BITS_PER_LONG) :
    slot_mask k n = some (2 ^ n - 1) := by
  have hpos : 1 ≤ 2 ^ n := Nat.one_le_two_pow
  have hlt : 2 ^ n < 2 ^ k.BITS_PER_LONG := Nat.pow_lt_pow_right (by decide) hL
  have hle : 2 ^ n ≤ 2 ^ 32 := Nat.pow_le_pow_right (by decide) hN
  have e1 : 2 ^ n + 2 ^ k.BITS_PER_LONG - 1 = (2 ^ n - 1) + 2 ^ k.BITS_PER_LONG := by omega
  have e2 : (2 ^ n - 1 + 2 ^ k.BITS_PER_LONG) % 2 ^ k.BITS_PER_LONG = 2 ^ n - 1 := by
    rw [Nat.add_mod_right]
    exact Nat.mod_eq_of_lt (by omega)
  have e3 : (2 ^ n - 1) % 2 ^ 32 = 2 ^ n - 1 := Nat.mod_eq_of_lt (by omega)
  simp only [slot_mask, BIT, hL, if_true, Option.map_some', to_uint, e1, e2, e3]

/-- C2 (as stated) fails: with 33 channels on a 64-bit kernel the mask passed
for both directions is 0xFFFFFFFF, in which bit 32 is not set. -/
theorem slot_mask_33_channels_not_exact :
    imx_pcm512x_hw_params k_arm64 core_accept { channels := 33, physical_width := 32 }
      = (0, [Event.snd_soc_dai_set_fmt DaiId.cpu_dai 16385 0,
             Event.snd_soc_dai_set_fmt DaiId.codec_dai 16385 0,
             Event.snd_soc_dai_set_tdm_slot DaiId.cpu_dai (some 4294967295)
               (some 4294967295) 2 32 0])
    ∧ ¬ low_bits_exactly 4294967295 33 := by
  refine ⟨by decide, fun h => ?_⟩
  have h32 := h 32
  revert h32
  decide

/-- C2 (amended): for a stream open with at most 32 channels, fewer than the
width of `unsigned long`, in which both format calls succeed, the only TDM
request is on the CPU DAI with transmit and receive mask `2 ^ N - 1`, which has
exactly the N low-order bits set, slot count 2 and slot width W. -/
theorem hw_params_slot_mask_up_to_32 (k : KernelConsts) (core : DaiCore)
    (params : snd_pcm_hw_params)
    (hN : params.channels ≤ 32) (hL : params.channels < k.BITS_PER_LONG)
    (hcpu : core.snd_soc_dai_set_fmt DaiId.cpu_dai (link_fmt k) = 0)
    (hcodec : core.snd_soc_dai_set_fmt DaiId.codec_dai (link_fmt k) = 0) :
    (imx_pcm512x_hw_params k core params).2.filter is_tdm_request
      = [Event.snd_soc_dai_set_tdm_slot DaiId.cpu_dai (some (2 ^ params.channels - 1))
          (some (2 ^ params.channels - 1)) 2 params.physical_width
          (core.snd_soc_dai_set_tdm_slot DaiId.cpu_dai (some (2 ^ params.channels - 1))
            (some (2 ^ params.channels - 1)) 2 params.physical_width)]
    ∧ low_bits_exactly (2 ^ params.channels - 1) params.channels := by
  refine ⟨?_, fun i => Nat.testBit_two_pow_sub_one _ _⟩
  simp only [link_fmt] at hcpu hcodec
  by_cases h3 : core.snd_soc_dai_set_tdm_slot DaiId.cpu_dai (some (2 ^ params.channels - 1))
      (some (2 ^ params.channels - 1)) 2 params.physical_width = 0 <;>
    simp [imx_pcm512x_hw_params, hcpu, hcodec, slot_mask_eq k _ hN hL, h3, is_tdm_request]

/-- Witness for `hw_params_slot_mask_up_to_32`: a stereo stream of 32-bit samples. -/
theorem hw_params_slot_mask_up_to_32_witness :
    (imx_pcm512x_hw_params k_arm64 core_accept
        { channels := 2, physical_width := 32 }).2.filter is_tdm_request
      = [Event.snd_soc_dai_set_tdm_slot DaiId.cpu_dai (some (2 ^ 2 - 1)) (some (2 ^ 2 - 1))
          2 32 0]
    ∧ low_bits_exactly (2 ^ 2 - 1) 2 :=
  hw_params_slot_mask_up_to_32 k_arm64 core_accept { channels := 2, physical_width := 32 }
    (by decide) (by decide) rfl rfl

/-- What the allocation holds once probe has read the flags, and once it has
populated link and card (the call parsing the card name follows population). -/
theorem probe_data_facts (k : KernelConsts) (env : Env) (d : imx_pcm512x_data)
    (hd : (imx_pcm512x_probe k env).data = some d) :
    (Event.of_property_read_bool "pidac,24db_digital_gain" ∈ (imx_pcm512x_probe k env).trace →
      d.digital_gain_limit = !env.of_property_read_bool "pidac,24db_digital_gain"
      ∧ d.gpio_unmute = env.of_property_read_bool "pidac,unmute_amp"
      ∧ d.auto_mute = env.of_property_read_bool "pidac,auto_mute_amp")
    ∧ (Event.snd_soc_of_parse_card_name "model" ∈ (imx_pcm512x_probe k env).trace →
      d.dai.dai_fmt = link_fmt k
      ∧ d.card.set_bias_level
          = (if env.of_property_read_bool "pidac,auto_mute_amp"
                && env.of_property_read_bool "pidac,unmute_amp"
             then some Callback.imx_pcm512x_set_bias_level else none)) := by
  revert hd
  rcases h0 : env.devm_kzalloc with _ | _
  · simp [imx_pcm512x_probe, h0]
  rcases h1 : env.of_parse_phandle "audio-cpu" with _ | cpu
  · simp [imx_pcm512x_probe, h0, h1, probe_fail]
  rcases h2 : env.of_find_device_by_node cpu with _ | cpu_pdev
  · simp [imx_pcm512x_probe, h0, h1, h2, probe_fail]
  rcases h3 : env.of_parse_phandle "audio-codec" with _ | codec
  · simp [imx_pcm512x_probe, h0, h1, h2, h3, probe_fail]
  rcases h4 : env.of_find_i2c_device_by_node codec with _ | ⟨_ | _⟩
  · simp [imx_pcm512x_probe, h0, h1, h2, h3, h4, probe_fail]
  · simp [imx_pcm512x_probe, h0, h1, h2, h3, h4, probe_fail]
  rcases hu : env.of_property_read_bool "pidac,unmute_amp" with _ | _ <;>
  rcases ha : env.of_property_read_bool "pidac,auto_mute_amp" with _ | _ <;>
  rcases hg : env.devm_gpiod_get_optional "mute" with _ | id | e <;>
  by_cases hc : env.snd_soc_of_parse_card_name = 0 <;>
  by_cases hr : env.snd_soc_of_parse_audio_routing = 0 <;>
  by_cases hreg : env.devm_snd_soc_register_card = 0 <;>
  simp [imx_pcm512x_probe, h0, h1, h2, h3, h4, hu, ha, hg, hc, hr, hreg, probe_fail,
    IS_ERR, GpioPtr.nonnull, link_fmt] <;>
  (intro hd; subst hd; simp)

/-- C5: when probe reaches card population, the card's `set_bias_level` hook is
`imx_pcm512x_set_bias_level` if and only if both `pidac,unmute_amp` and
`pidac,auto_mute_amp` are present; if either is absent the hook is unset and no
bias-level notification of the card makes any call, so none writes the mute
GPIO. -/
theorem probe_installs_bias_hook_iff_both_flags (k : KernelConsts) (env : Env)
    (d : imx_pcm512x_data)
    (hd : (imx_pcm512x_probe k env).data = some d)
    (hreach : Event.snd_soc_of_parse_card_name "model" ∈ (imx_pcm512x_probe k env).trace) :
    (d.card.set_bias_level = some Callback.imx_pcm512x_set_bias_level
      ↔ (env.of_property_read_bool "pidac,unmute_amp" = true
          ∧ env.of_property_read_bool "pidac,auto_mute_amp" = true))
    ∧ (¬ (env.of_property_read_bool "pidac,unmute_amp" = true
          ∧ env.of_property_read_bool "pidac,auto_mute_amp" = true) →
        d.card.set_bias_level = none
        ∧ ∀ (codec_dai : snd_soc_dai) (dapm : snd_soc_dapm_context)
            (level : snd_soc_bias_level),
            (card_set_bias_level d codec_dai dapm level).2 = []) := by
  have h := ((probe_data_facts k env d hd).2 hreach).2
  rcases hu : env.of_property_read_bool "pidac,unmute_amp" with _ | _ <;>
  rcases ha : env.of_property_read_bool "pidac,auto_mute_amp" with _ | _ <;>
  simp [hu, ha] at h <;>
  simp [h, card_set_bias_level]

/-- Witness for `probe_installs_bias_hook_iff_both_flags`: the board with only
`pidac,unmute_amp` reaches card population and gets no hook. -/
theorem probe_installs_bias_hook_iff_both_flags_witness :
    (imx_pcm512x_probe k_arm64 env_unmute_only).data
        = some ((imx_pcm512x_probe k_arm64 env_unmute_only).data.getD {})
    ∧ Event.snd_soc_of_parse_card_name "model" ∈ (imx_pcm512x_probe k_arm64 env_unmute_only).trace
    ∧ ((imx_pcm512x_probe k_arm64 env_unmute_only).data.getD {}).card.set_bias_level = none :=
  ⟨by decide, by decide,
    ((probe_installs_bias_hook_iff_both_flags k_arm64 env_unmute_only
      ((imx_pcm512x_probe k_arm64 env_unmute_only).data.getD {})
      (by decide) (by decide)).2 (by decide)).1⟩

/-- C8: stream format negotiation applies the fixed format word, the one probe
stores as the link's `dai_fmt`, to the CPU DAI, then to the codec DAI, then
requests the TDM slots on the CPU DAI.  The first call with a non-zero result
ends it: that result is returned and no later call is made.  The return value
is 0 exactly when all three results are 0. -/
theorem hw_params_first_failure_aborts (k : KernelConsts) (core : DaiCore)
    (params : snd_pcm_hw_params) :
    (core.snd_soc_dai_set_fmt DaiId.cpu_dai (link_fmt k) ≠ 0 →
      (imx_pcm512x_hw_params k core params).1
          = core.snd_soc_dai_set_fmt DaiId.cpu_dai (link_fmt k)
      ∧ calls (imx_pcm512x_hw_params k core params).2
          = [Event.snd_soc_dai_set_fmt DaiId.cpu_dai (link_fmt k)
              (core.snd_soc_dai_set_fmt DaiId.cpu_dai (link_fmt k))])
    ∧ (core.snd_soc_dai_set_fmt DaiId.cpu_dai (link_fmt k) = 0 →
        core.snd_soc_dai_set_fmt DaiId.codec_dai (link_fmt k) ≠ 0 →
      (imx_pcm512x_hw_params k core params).1
          = core.snd_soc_dai_set_fmt DaiId.codec_dai (link_fmt k)
      ∧ calls (imx_pcm512x_hw_params k core params).2
          = [Event.snd_soc_dai_set_fmt DaiId.cpu_dai (link_fmt k) 0,
             Event.snd_soc_dai_set_fmt DaiId.codec_dai (link_fmt k)
              (core.snd_soc_dai_set_fmt DaiId.codec_dai (link_fmt k))])
    ∧ (core.snd_soc_dai_set_fmt DaiId.cpu_dai (link_fmt k) = 0 →
        core.snd_soc_dai_set_fmt DaiId.codec_dai (link_fmt k) = 0 →
      (imx_pcm512x_hw_params k core params).1
          = core.snd_soc_dai_set_tdm_slot DaiId.cpu_dai (slot_mask k params.channels)
              (slot_mask k params.channels) 2 params.physical_width
      ∧ calls (imx_pcm512x_hw_params k core params).2
          = [Event.snd_soc_dai_set_fmt DaiId.cpu_dai (link_fmt k) 0,
             Event.snd_soc_dai_set_fmt DaiId.codec_dai (link_fmt k) 0,
             Event.snd_soc_dai_set_tdm_slot DaiId.cpu_dai (slot_mask k params.channels)
              (slot_mask k params.channels) 2 params.physical_width
              (core.snd_soc_dai_set_tdm_slot DaiId.cpu_dai (slot_mask k params.channels)
                (slot_mask k params.channels) 2 params.physical_width)])
    ∧ ((imx_pcm512x_hw_params k core params).1 = 0
        ↔ (core.snd_soc_dai_set_fmt DaiId.cpu_dai (link_fmt k) = 0
            ∧ core.snd_soc_dai_set_fmt DaiId.codec_dai (link_fmt k) = 0
            ∧ core.snd_soc_dai_set_tdm_slot DaiId.cpu_dai (slot_mask k params.channels)
                (slot_mask k params.channels) 2 params.physical_width = 0))
    ∧ (∀ (env : Env) (d : imx_pcm512x_data),
        (imx_pcm512x_probe k env).data = some d →
        Event.snd_soc_of_parse_card_name "model" ∈ (imx_pcm512x_probe k env).trace →
        d.dai.dai_fmt = link_fmt k) := by
  refine ⟨?_, ?_, ?_, ?_, fun env d hd hreach => ((probe_data_facts k env d hd).2 hreach).1⟩
  · intro h1
    simp only [link_fmt] at h1
    simp [imx_pcm512x_hw_params, link_fmt, h1, calls, is_log]
  · intro h1 h2
    simp only [link_fmt] at h1 h2
    simp [imx_pcm512x_hw_params, link_fmt, h1, h2, calls, is_log]
  · intro h1 h2
    simp only [link_fmt] at h1 h2
    by_cases h3 : core.snd_soc_dai_set_tdm_slot DaiId.cpu_dai (slot_mask k params.channels)
        (slot_mask k params.channels) 2 params.physical_width = 0 <;>
      simp [imx_pcm512x_hw_params, link_fmt, h1, h2, h3, calls, is_log]
  · simp only [link_fmt]
    by_cases h1 : core.snd_soc_dai_set_fmt DaiId.cpu_dai
        (k.SND_SOC_DAIFMT_I2S ||| k.SND_SOC_DAIFMT_NB_NF ||| k.SND_SOC_DAIFMT_CBS_CFS) = 0 <;>
    by_cases h2 : core.snd_soc_dai_set_fmt DaiId.codec_dai
        (k.SND_SOC_DAIFMT_I2S ||| k.SND_SOC_DAIFMT_NB_NF ||| k.SND_SOC_DAIFMT_CBS_CFS) = 0 <;>
    by_cases h3 : core.snd_soc_dai_set_tdm_slot DaiId.cpu_dai (slot_mask k params.channels)
        (slot_mask k params.channels) 2 params.physical_width = 0 <;>
      simp [imx_pcm512x_hw_params, h1, h2, h3]

/-- Witness for `hw_params_first_failure_aborts`: a codec DAI rejecting the
format with -22 ends the stream open with -22 after two calls, and on the
board where everything resolves the link's `dai_fmt` is the same word. -/
theorem hw_params_first_failure_aborts_witness :
    core_codec_rejects.snd_soc_dai_set_fmt DaiId.cpu_dai (link_fmt k_arm64) = 0
    ∧ core_codec_rejects.snd_soc_dai_set_fmt DaiId.codec_dai (link_fmt k_arm64) ≠ 0
    ∧ (imx_pcm512x_hw_params k_arm64 core_codec_rejects
          { channels := 2, physical_width := 32 }).1 = -22
    ∧ calls (imx_pcm512x_hw_params k_arm64 core_codec_rejects
          { channels := 2, physical_width := 32 }).2
        = [Event.snd_soc_dai_set_fmt DaiId.cpu_dai (link_fmt k_arm64) 0,
           Event.snd_soc_dai_set_fmt DaiId.codec_dai (link_fmt k_arm64) (-22)]
    ∧ ((imx_pcm512x_probe k_arm64 env_ok).data.getD {}).dai.dai_fmt = link_fmt k_arm64 :=
  ⟨by decide, by decide,
    ((hw_params_first_failure_aborts k_arm64 core_codec_rejects
      { channels := 2, physical_width := 32 }).2.1 (by decide) (by decide)).1,
    ((hw_params_first_failure_aborts k_arm64 core_codec_rejects
      { channels := 2, physical_width := 32 }).2.1 (by decide) (by decide)).2,
    (hw_params_first_failure_aborts k_arm64 core_codec_rejects
      { channels := 2, physical_width := 32 }).2.2.2.2 env_ok
      ((imx_pcm512x_probe k_arm64 env_ok).data.getD {}) (by decide) (by decide)⟩

/-- C10: the digital-gain-limit flag probe sets is the negation of the presence
of `pidac,24db_digital_gain`; the link initialisation hook requests the volume
ceiling ("Digital Playback Volume", 207) exactly when the flag is true, and
returns 0 whatever the request returns. -/
theorem gain_limit_flag_and_dai_init (k : KernelConsts) (env : Env) (d : imx_pcm512x_data)
    (hd : (imx_pcm512x_probe k env).data = some d)
    (hread : Event.of_property_read_bool "pidac,24db_digital_gain"
      ∈ (imx_pcm512x_probe k env).trace) :
    d.digital_gain_limit = !env.of_property_read_bool "pidac,24db_digital_gain"
    ∧ (env.of_property_read_bool "pidac,24db_digital_gain" = false →
        d.digital_gain_limit = true)
    ∧ (∀ (data : imx_pcm512x_data) (limit_volume : String → Int → Int),
        (imx_pcm512x_dai_init data limit_volume).1 = 0
        ∧ (data.digital_gain_limit = true →
            calls (imx_pcm512x_dai_init data limit_volume).2
              = [Event.snd_soc_limit_volume "Digital Playback Volume" 207
                  (limit_volume "Digital Playback Volume" 207)])
        ∧ (data.digital_gain_limit = false →
            (imx_pcm512x_dai_init data limit_volume).2 = [])) := by
  have h := ((probe_data_facts k env d hd).1 hread).1
  refine ⟨h, fun hp => by simp [h, hp], fun data lv => ?_⟩
  rcases hf : data.digital_gain_limit with _ | _
  · simp [imx_pcm512x_dai_init, hf]
  · by_cases hl : lv "Digital Playback Volume" 207 = 0 <;>
      simp [imx_pcm512x_dai_init, hf, hl, calls, is_log]

/-- Witness for `gain_limit_flag_and_dai_init`: on the board where everything
resolves the gain property is absent, so the flag is true; and a failing
ceiling request (-22) still gives return code 0. -/
theorem gain_limit_flag_and_dai_init_witness :
    ((imx_pcm512x_probe k_arm64 env_ok).data.getD {}).digital_gain_limit = true
    ∧ (imx_pcm512x_dai_init data_limit (fun _ _ => -22)).1 = 0
    ∧ calls (imx_pcm512x_dai_init data_limit (fun _ _ => -22)).2
        = [Event.snd_soc_limit_volume "Digital Playback Volume" 207 (-22)] :=
  ⟨(gain_limit_flag_and_dai_init k_arm64 env_ok
      ((imx_pcm512x_probe k_arm64 env_ok).data.getD {}) (by decide) (by decide)).2.1
      (by decide),
    ((gain_limit_flag_and_dai_init k_arm64 env_ok
      ((imx_pcm512x_probe k_arm64 env_ok).data.getD {}) (by decide) (by decide)).2.2
      data_limit (fun _ _ => -22)).1,
    ((gain_limit_flag_and_dai_init k_arm64 env_ok
      ((imx_pcm512x_probe k_arm64 env_ok).data.getD {}) (by decide) (by decide)).2.2
      data_limit (fun _ _ => -22)).2.1 (by decide)⟩

set_option maxHeartbeats 2000000 in
/-- C6: probe writes the mute line exactly once, value 1, right after the
successful card registration, when `pidac,unmute_amp` is present and the line
was acquired, and the line is then high when probe returns 0; on every failing
path, and whenever `pidac,unmute_amp` is absent, probe writes nothing to the
line, which is not high. -/
theorem probe_unmutes_once_after_registration (k : KernelConsts) (env : Env) :
    ((imx_pcm512x_probe k env).ret = 0 →
      env.of_property_read_bool "pidac,unmute_amp" = true →
      ∀ id : Nat, env.devm_gpiod_get_optional "mute" = GpioPtr.desc id →
        (imx_pcm512x_probe k env).trace.filter is_gpio_write
            = [Event.gpiod_set_value_cansleep (GpioPtr.desc id) 1]
        ∧ ((imx_pcm512x_probe k env).trace.takeWhile (fun e => !is_gpio_write e)).getLast?
            = some (Event.devm_snd_soc_register_card 0)
        ∧ mute_line (imx_pcm512x_probe k env).trace = some 1)
    ∧ ((imx_pcm512x_probe k env).ret ≠ 0 →
        (imx_pcm512x_probe k env).trace.filter is_gpio_write = []
        ∧ mute_line (imx_pcm512x_probe k env).trace ≠ some 1)
    ∧ (env.of_property_read_bool "pidac,unmute_amp" = false →
        (imx_pcm512x_probe k env).trace.filter is_gpio_write = []
        ∧ mute_line (imx_pcm512x_probe k env).trace ≠ some 1) := by
  rcases h0 : env.devm_kzalloc with _ | _
  · simp [imx_pcm512x_probe, h0, mute_line, ENOMEM]
  rcases h1 : env.of_parse_phandle "audio-cpu" with _ | cpu
  · simp [imx_pcm512x_probe, h0, h1, probe_fail, is_gpio_write, mute_line, mute_line_step,
      EINVAL]
  rcases h2 : env.of_find_device_by_node cpu with _ | cpu_pdev
  · simp [imx_pcm512x_probe, h0, h1, h2, probe_fail, is_gpio_write, mute_line,
      mute_line_step, EINVAL]
  rcases h3 : env.of_parse_phandle "audio-codec" with _ | codec
  · simp [imx_pcm512x_probe, h0, h1, h2, h3, probe_fail, is_gpio_write, mute_line,
      mute_line_step, EINVAL]
  rcases h4 : env.of_find_i2c_device_by_node codec with _ | ⟨_ | _⟩
  · simp [imx_pcm512x_probe, h0, h1, h2, h3, h4, probe_fail, is_gpio_write, mute_line,
      mute_line_step, EPROBE_DEFER]
  · simp [imx_pcm512x_probe, h0, h1, h2, h3, h4, probe_fail, is_gpio_write, mute_line,
      mute_line_step, EPROBE_DEFER]
  rcases hu : env.of_property_read_bool "pidac,unmute_amp" with _ | _ <;>
  rcases ha : env.of_property_read_bool "pidac,auto_mute_amp" with _ | _ <;>
  rcases hg : env.devm_gpiod_get_optional "mute" with _ | id | e <;>
  by_cases hc : env.snd_soc_of_parse_card_name = 0 <;>
  by_cases hr : env.snd_soc_of_parse_audio_routing = 0 <;>
  by_cases hreg : env.devm_snd_soc_register_card = 0 <;>
  simp [imx_pcm512x_probe, h0, h1, h2, h3, h4, hu, ha, hg, hc, hr, hreg, probe_fail,
    IS_ERR, PTR_ERR, GpioPtr.nonnull, is_gpio_write, mute_line, mute_line_step]

/-- Witness for `probe_unmutes_once_after_registration`: on the board where
everything resolves probe succeeds and leaves the mute line high after one
write. -/
theorem probe_unmutes_once_after_registration_witness :
    (imx_pcm512x_probe k_arm64 env_ok).ret = 0
    ∧ (imx_pcm512x_probe k_arm64 env_ok).trace.filter is_gpio_write
        = [Event.gpiod_set_value_cansleep (GpioPtr.desc 7) 1]
    ∧ ((imx_pcm512x_probe k_arm64 env_ok).trace.takeWhile (fun e => !is_gpio_write e)).getLast?
        = some (Event.devm_snd_soc_register_card 0)
    ∧ mute_line (imx_pcm512x_probe k_arm64 env_ok).trace = some 1
    ∧ (imx_pcm512x_probe k_arm64 env_codec_unbound).trace.filter is_gpio_write = [] :=
  ⟨by decide,
    ((probe_unmutes_once_after_registration k_arm64 env_ok).1 (by decide) (by decide) 7
      (by decide)).1,
    ((probe_unmutes_once_after_registration k_arm64 env_ok).1 (by decide) (by decide) 7
      (by decide)).2.1,
    ((probe_unmutes_once_after_registration k_arm64 env_ok).1 (by decide) (by decide) 7
      (by decide)).2.2,
    ((probe_unmutes_once_after_registration k_arm64 env_codec_unbound).2.1 (by decide)).1⟩

/-- C3 (as stated) fails: on a board where both phandles and the CPU platform
device resolve and the codec I2C device has no bound driver, a failing
allocation makes probe return -ENOMEM, not -EPROBE_DEFER. -/
theorem probe_codec_unbound_oom_returns_enomem :
    env_codec_unbound_oom.of_parse_phandle "audio-cpu" = some 1
    ∧ env_codec_unbound_oom.of_find_device_by_node 1 = some { name := "30010000.sai" }
    ∧ env_codec_unbound_oom.of_parse_phandle "audio-codec" = some 2
    ∧ env_codec_unbound_oom.of_find_i2c_device_by_node 2 = some { driver := false }
    ∧ (imx_pcm512x_probe k_arm64 env_codec_unbound_oom).ret = -ENOMEM
    ∧ (imx_pcm512x_probe k_arm64 env_codec_unbound_oom).ret ≠ -EPROBE_DEFER := by
  decide

/-- C3 (amended): when the allocation succeeds, both phandles and the CPU
platform device resolve, and the codec I2C device is not found or has no bound
driver, probe returns -EPROBE_DEFER, which differs from -EINVAL, without
reading any boolean property, asking for the mute GPIO, or registering a card. -/
theorem probe_defers_when_codec_unbound (k : KernelConsts) (env : Env)
    (cpu codec : Nat) (cpu_pdev : platform_device)
    (h0 : env.devm_kzalloc = true)
    (h1 : env.of_parse_phandle "audio-cpu" = some cpu)
    (h2 : env.of_find_device_by_node cpu = some cpu_pdev)
    (h3 : env.of_parse_phandle "audio-codec" = some codec)
    (h4 : env.of_find_i2c_device_by_node codec = none
      ∨ env.of_find_i2c_device_by_node codec = some { driver := false }) :
    (imx_pcm512x_probe k env).ret = -EPROBE_DEFER
    ∧ -EPROBE_DEFER ≠ -EINVAL
    ∧ (∀ name : String,
        Event.of_property_read_bool name ∉ (imx_pcm512x_probe k env).trace)
    ∧ (∀ (con_id : String) (res : GpioPtr),
        Event.devm_gpiod_get_optional con_id res ∉ (imx_pcm512x_probe k env).trace)
    ∧ (∀ res : Int,
        Event.devm_snd_soc_register_card res ∉ (imx_pcm512x_probe k env).trace) := by
  rcases h4 with h4 | h4 <;>
    simp [imx_pcm512x_probe, h0, h1, h2, h3, h4, probe_fail, EPROBE_DEFER, EINVAL]

/-- Witness for `probe_defers_when_codec_unbound`: the board whose codec driver
is not bound yet. -/
theorem probe_defers_when_codec_unbound_witness :
    (imx_pcm512x_probe k_arm64 env_codec_unbound).ret = -EPROBE_DEFER
    ∧ -EPROBE_DEFER ≠ -EINVAL
    ∧ (∀ name : String,
        Event.of_property_read_bool name ∉ (imx_pcm512x_probe k_arm64 env_codec_unbound).trace)
    ∧ (∀ (con_id : String) (res : GpioPtr),
        Event.devm_gpiod_get_optional con_id res
          ∉ (imx_pcm512x_probe k_arm64 env_codec_unbound).trace)
    ∧ (∀ res : Int,
        Event.devm_snd_soc_register_card res
          ∉ (imx_pcm512x_probe k_arm64 env_codec_unbound).trace) :=
  probe_defers_when_codec_unbound k_arm64 env_codec_unbound 1 2 { name := "30010000.sai" }
    rfl rfl rfl rfl (Or.inr rfl)

/-- C7 (as stated) fails: on a board with no `audio-cpu` phandle a failing
allocation makes probe return -ENOMEM, not -EINVAL. -/
theorem probe_no_cpu_oom_returns_enomem :
    env_no_cpu_oom.of_parse_phandle "audio-cpu" = none
    ∧ (imx_pcm512x_probe k_arm64 env_no_cpu_oom).ret = -ENOMEM
    ∧ (imx_pcm512x_probe k_arm64 env_no_cpu_oom).ret ≠ -EINVAL := by
  decide

/-- C7 (amended): when the allocation succeeds and the `audio-cpu` phandle does
not resolve, or it resolves and the CPU platform device is not found, or it
resolves and the `audio-codec` phandle does not, probe returns -EINVAL and
never calls card registration. -/
theorem probe_einval_on_missing_endpoint (k : KernelConsts) (env : Env)
    (h0 : env.devm_kzalloc = true)
    (h : env.of_parse_phandle "audio-cpu" = none
      ∨ ∃ cpu : Nat, env.of_parse_phandle "audio-cpu" = some cpu
          ∧ (env.of_find_device_by_node cpu = none
              ∨ env.of_parse_phandle "audio-codec" = none)) :
    (imx_pcm512x_probe k env).ret = -EINVAL
    ∧ (∀ res : Int,
        Event.devm_snd_soc_register_card res ∉ (imx_pcm512x_probe k env).trace) := by
  rcases h with h1 | ⟨cpu, h1, h2 | h3⟩
  · simp [imx_pcm512x_probe, h0, h1, probe_fail]
  · simp [imx_pcm512x_probe, h0, h1, h2, probe_fail]
  · rcases h2 : env.of_find_device_by_node cpu with _ | cpu_pdev <;>
      simp [imx_pcm512x_probe, h0, h1, h2, h3, probe_fail]

/-- Witness for `probe_einval_on_missing_endpoint`: the board with no
`audio-cpu` phandle. -/
theorem probe_einval_on_missing_endpoint_witness :
    (imx_pcm512x_probe k_arm64 env_no_cpu).ret = -EINVAL
    ∧ (∀ res : Int,
        Event.devm_snd_soc_register_card res ∉ (imx_pcm512x_probe k_arm64 env_no_cpu).trace) :=
  probe_einval_on_missing_endpoint k_arm64 env_no_cpu rfl (Or.inl rfl)

/-- Through a pointer to the allocation itself the detach handler mutes the
line when `gpio_unmute` is set, then unregisters the card member once and
returns that call's result. -/
theorem remove_through_data_pointer (l : Layout) (obj : imx_pcm512x_data)
    (unregister_card : Nat → Int) :
    imx_pcm512x_remove l obj DataPtr.data unregister_card
      = some (unregister_card (offsetof_card l),
          (if obj.gpio_unmute then [Event.gpiod_set_value_cansleep obj.mute_gpio 0] else [])
            ++ [Event.snd_soc_unregister_card (offsetof_card l)
                  (unregister_card (offsetof_card l))]) := by
  rcases hu : obj.gpio_unmute with _ | _ <;>
    simp [imx_pcm512x_remove, DataPtr.addr, load_bool, load_gpio, offsetof_gpio_unmute,
      offsetof_digital_gain_limit, offsetof_auto_mute, offsetof_mute_gpio, hu]

/-- Through a pointer to the member `card`, which lies behind the link, the
address the detach handler reads `gpio_unmute` from holds no such member. -/
theorem remove_through_card_pointer (l : Layout) (obj : imx_pcm512x_data)
    (unregister_card : Nat → Int) (h : 1 < l.sizeof_dai_link) :
    imx_pcm512x_remove l obj DataPtr.data_card unregister_card = none := by
  have e1 : ¬ (offsetof_card l + offsetof_gpio_unmute l = offsetof_digital_gain_limit l) := by
    simp only [offsetof_card, offsetof_gpio_unmute, offsetof_digital_gain_limit]; omega
  have e2 : ¬ (offsetof_card l + offsetof_gpio_unmute l = offsetof_gpio_unmute l) := by
    simp only [offsetof_card, offsetof_gpio_unmute]; omega
  have e3 : ¬ (offsetof_card l + offsetof_gpio_unmute l = offsetof_auto_mute l) := by
    simp only [offsetof_card, offsetof_gpio_unmute, offsetof_auto_mute]; omega
  simp [imx_pcm512x_remove, DataPtr.addr, load_bool, e1, e2, e3]

/-- C9 (code defect): after a successful probe with `pidac,unmute_amp` present
the device's driver data is `&data->card`; the detach handler reads it as the
allocation itself, so the flag it tests is not the `gpio_unmute` probe set and
no write of 0 to the mute line results, whereas through `data` it would mute
the line and then unregister the card. -/
theorem remove_after_probe_misreads_drvdata :
    (imx_pcm512x_probe k_arm64 env_ok).ret = 0
    ∧ (imx_pcm512x_probe k_arm64 env_ok).drvdata = some DataPtr.data_card
    ∧ ((imx_pcm512x_probe k_arm64 env_ok).data.getD {}).gpio_unmute = true
    ∧ imx_pcm512x_remove layout_min64 ((imx_pcm512x_probe k_arm64 env_ok).data.getD {})
        DataPtr.data_card (fun _ => 0) = none
    ∧ imx_pcm512x_remove layout_min64 ((imx_pcm512x_probe k_arm64 env_ok).data.getD {})
        DataPtr.data (fun _ => 0)
        = some (0, [Event.gpiod_set_value_cansleep (GpioPtr.desc 7) 0,
                    Event.snd_soc_unregister_card 80 0]) := by
  decide

end ImxPcm512x
